import Mathlib

/-!
Verification development for the knowledge_base_agent repository.

The repository is a thin Python adapter exposing three operations, store,
query and clear, over a remote knowledge-base backend (naptha-sdk).  The
source files embedded here are src/knowledge_base_agent/run.py and
src/knowledge_base_agent/schemas.py.

Modelling conventions:
  - Python values are modelled by the inductive type PyVal (None, bool, int,
    str, list, dict).  Python dicts are association lists with string keys;
    the source never builds a dict with duplicate keys.
  - Python exceptions are modelled by PyErr; code that can raise returns
    Except PyErr.  A try/except block is a match on that Except.
  - The json module (used at run.py lines 84, 85, 95) is modelled by a
    serializer jdumps and a fuel-based recursive-descent reader jloads over
    a subset of JSON sufficient for the values this adapter handles
    (null, booleans, integers, strings, arrays, objects).  Because run.py
    imports json only inside the __main__ guard (line 145), the name json
    is bound in module globals only when the file is executed as a script;
    the flag jsonBound threads that distinction through the model.
  - The external backend (naptha_sdk KnowledgeBase) is an oracle: a pair of
    functions giving the outcome of market_kb.create and market_kb.run.
    Each operation also returns the list of backend interactions it
    attempted, in order, so that claims about "no remote call" or "exactly
    one remote call" are statements about that trace.
-/

/-- Model of a Python value (the JSON-like fragment the adapter handles). -/
inductive PyVal where
  | none
  | bool (b : Bool)
  | int (n : Int)
  | str (s : String)
  | list (xs : List PyVal)
  | dict (fs : List (String × PyVal))

/-- Model of a Python exception.  The payload is str(e). -/
inductive PyErr where
  | validationError (m : String)
  | typeError (m : String)
  | attributeError (m : String)
  | nameError (m : String)
  | keyError (m : String)
  | indexError (m : String)
  | valueError (m : String)

/-- The str(e) text used when an exception is formatted into a message. -/
def PyErr.msg : PyErr → String
  | .validationError m => m
  | .typeError m => m
  | .attributeError m => m
  | .nameError m => m
  | .keyError m => m
  | .indexError m => m
  | .valueError m => m

/-- The Python type name of a value, used in exception messages. -/
def pyTypeName : PyVal → String
  | .none => "NoneType"
  | .bool _ => "bool"
  | .int _ => "int"
  | .str _ => "str"
  | .list _ => "list"
  | .dict _ => "dict"

/-- Boolean test that a value is the given string (Python x == "lit"). -/
def pyEqStr : PyVal → String → Bool
  | .str s, t => s == t
  | _, _ => false

/-- Python truthiness, as used by `if not data:` at run.py line 86. -/
def pyFalsy : PyVal → Bool
  | .none => true
  | .bool b => !b
  | .int n => n == 0
  | .str s => s == ""
  | .list xs => xs.isEmpty
  | .dict fs => fs.isEmpty

/-- Python d.get(k) with one argument: None when the key is absent; raises
AttributeError when the receiver is not a dict. -/
def pyDotGet : PyVal → String → Except PyErr PyVal
  | .dict fs, k =>
    match fs.lookup k with
    | some v => .ok v
    | Option.none => .ok .none
  | v, _ => .error (.attributeError
      ("\x27" ++ pyTypeName v ++ "\x27 object has no attribute \x27get\x27"))

/-- Python d.get(k, default) on a dict; on a non-dict receiver the source
would raise, but every call site has already established the receiver is a
dict, so the default is returned there as a total fallback. -/
def pyGetD : PyVal → String → PyVal → PyVal
  | .dict fs, k, d =>
    match fs.lookup k with
    | some v => v
    | Option.none => d
  | _, _, d => d

/-- Python `k in d` on a dict receiver (run.py line 83). -/
def pyHasKey : PyVal → String → Bool
  | .dict fs, k => (fs.lookup k).isSome
  | _, _ => false

/-- Python x[k] with a string subscript. -/
def pySubscriptKey : PyVal → String → Except PyErr PyVal
  | .dict fs, k =>
    match fs.lookup k with
    | some v => .ok v
    | Option.none => .error (.keyError ("\x27" ++ k ++ "\x27"))
  | .list _, _ => .error (.typeError "list indices must be integers or slices, not str")
  | .str _, _ => .error (.typeError "string indices must be integers")
  | v, _ => .error (.typeError
      ("\x27" ++ pyTypeName v ++ "\x27 object is not subscriptable"))

/-- Python x[i] with a non-negative integer subscript. -/
def pyIndexNat : PyVal → Nat → Except PyErr PyVal
  | .list xs, i =>
    match xs[i]? with
    | some v => .ok v
    | Option.none => .error (.indexError "list index out of range")
  | .str s, i =>
    match s.data[i]? with
    | some c => .ok (.str (String.singleton c))
    | Option.none => .error (.indexError "string index out of range")
  | .dict _, i => .error (.keyError (toString i))
  | v, _ => .error (.typeError
      ("\x27" ++ pyTypeName v ++ "\x27 object is not subscriptable"))

/-- Escape one character for a JSON string literal. -/
def jescapeChar (c : Char) : String :=
  if c = '"' then "\\\""
  else if c = '\\' then "\\\\"
  else if c = '\n' then "\\n"
  else if c = '\t' then "\\t"
  else if c = '\r' then "\\r"
  else String.singleton c

/-- Escape the body of a JSON string literal. -/
def jescape (s : String) : String :=
  String.join (s.data.map jescapeChar)

mutual

/-- Model of json.dumps over PyVal (run.py line 95 and the test harness). -/
def jdumps : PyVal → String
  | .none => "null"
  | .bool true => "true"
  | .bool false => "false"
  | .int n => toString n
  | .str s => "\"" ++ jescape s ++ "\""
  | .list xs => "[" ++ jdumpsList xs ++ "]"
  | .dict fs => "\x7b" ++ jdumpsFields fs ++ "\x7d"

/-- Comma-separated serialization of array elements. -/
def jdumpsList : List PyVal → String
  | [] => ""
  | [x] => jdumps x
  | x :: y :: xs => jdumps x ++ ", " ++ jdumpsList (y :: xs)

/-- Comma-separated serialization of object members. -/
def jdumpsFields : List (String × PyVal) → String
  | [] => ""
  | [(k, v)] => "\"" ++ jescape k ++ "\": " ++ jdumps v
  | (k, v) :: f :: fs =>
      "\"" ++ jescape k ++ "\": " ++ jdumps v ++ ", " ++ jdumpsFields (f :: fs)

end

/-- Skip JSON whitespace. -/
def jskipWs : List Char → List Char
  | c :: cs => if c = ' ' ∨ c = '\n' ∨ c = '\t' ∨ c = '\r' then jskipWs cs else c :: cs
  | [] => []

/-- Read the body of a JSON string literal after the opening quote, undoing
the escapes produced by jescape. -/
def jreadStr : List Char → Except String (String × List Char)
  | [] => .error "unterminated string"
  | '"' :: rest => .ok ("", rest)
  | '\\' :: e :: rest =>
    match jreadStr rest with
    | .error m => .error m
    | .ok (s, r) =>
      if e = 'n' then .ok ("\n" ++ s, r)
      else if e = 't' then .ok ("\t" ++ s, r)
      else if e = 'r' then .ok ("\r" ++ s, r)
      else if e = '"' ∨ e = '\\' ∨ e = '/' then .ok (String.singleton e ++ s, r)
      else .error "unsupported escape"
  | '\\' :: [] => .error "unterminated escape"
  | c :: rest =>
    match jreadStr rest with
    | .error m => .error m
    | .ok (s, r) => .ok (String.singleton c ++ s, r)

/-- Read a run of decimal digits as a Nat (at least one digit required). -/
def jreadDigits : List Char → Nat → Except String (Nat × List Char)
  | c :: cs, acc =>
    if c.isDigit then
      match jreadDigits cs (acc * 10 + (c.toNat - '0'.toNat)) with
      | .ok r => .ok r
      | .error m => .error m
    else .ok (acc, c :: cs)
  | [], acc => .ok (acc, [])

mutual

/-- Fuel-based recursive-descent reader for one JSON value. -/
def jreadVal : Nat → List Char → Except String (PyVal × List Char)
  | 0, _ => .error "fuel exhausted"
  | fuel + 1, cs =>
    match jskipWs cs with
    | [] => .error "unexpected end of input"
    | 'n' :: 'u' :: 'l' :: 'l' :: rest => .ok (.none, rest)
    | 't' :: 'r' :: 'u' :: 'e' :: rest => .ok (.bool true, rest)
    | 'f' :: 'a' :: 'l' :: 's' :: 'e' :: rest => .ok (.bool false, rest)
    | '"' :: rest =>
      match jreadStr rest with
      | .error m => .error m
      | .ok (s, r) => .ok (.str s, r)
    | '[' :: rest =>
      (match jskipWs rest with
       | ']' :: r => .ok (.list [], r)
       | other =>
         match jreadElems fuel other with
         | .error m => .error m
         | .ok (xs, r) => .ok (.list xs, r))
    | '\x7b' :: rest =>
      (match jskipWs rest with
       | '\x7d' :: r => .ok (.dict [], r)
       | other =>
         match jreadMembers fuel other with
         | .error m => .error m
         | .ok (fs, r) => .ok (.dict fs, r))
    | '-' :: rest =>
      (match rest with
       | c :: _ =>
         if c.isDigit then
           match jreadDigits rest 0 with
           | .error m => .error m
           | .ok (n, r) => .ok (.int (-(n : Int)), r)
         else .error "invalid number"
       | [] => .error "invalid number")
    | c :: rest =>
      if c.isDigit then
        match jreadDigits (c :: rest) 0 with
        | .error m => .error m
        | .ok (n, r) => .ok (.int (n : Int), r)
      else .error "expecting value"

/-- Read the elements of a non-empty JSON array, up to and including the
closing bracket. -/
def jreadElems : Nat → List Char → Except String (List PyVal × List Char)
  | 0, _ => .error "fuel exhausted"
  | fuel + 1, cs =>
    match jreadVal fuel cs with
    | .error m => .error m
    | .ok (v, r) =>
      match jskipWs r with
      | ',' :: r2 =>
        (match jreadElems fuel r2 with
         | .error m => .error m
         | .ok (xs, r3) => .ok (v :: xs, r3))
      | ']' :: r2 => .ok ([v], r2)
      | _ => .error "expecting comma or close bracket"

/-- Read the members of a non-empty JSON object, up to and including the
closing brace. -/
def jreadMembers : Nat → List Char → Except String (List (String × PyVal) × List Char)
  | 0, _ => .error "fuel exhausted"
  | fuel + 1, cs =>
    match jskipWs cs with
    | '"' :: rest =>
      (match jreadStr rest with
       | .error m => .error m
       | .ok (k, r) =>
         match jskipWs r with
         | ':' :: r2 =>
           (match jreadVal fuel r2 with
            | .error m => .error m
            | .ok (v, r3) =>
              match jskipWs r3 with
              | ',' :: r4 =>
                (match jreadMembers fuel r4 with
                 | .error m => .error m
                 | .ok (fs, r5) => .ok ((k, v) :: fs, r5))
              | '\x7d' :: r4 => .ok ([(k, v)], r4)
              | _ => .error "expecting comma or close brace")
         | _ => .error "expecting colon")
    | _ => .error "expecting property name"

end

/-- Model of json.loads on a string. -/
def jloads (s : String) : Except String PyVal :=
  match jreadVal (2 * s.length + 2) s.data with
  | .error m => .error m
  | .ok (v, rest) =>
    if (jskipWs rest).isEmpty then .ok v else .error "extra data"

/-- Model of a call json.loads(x) from the adapter: the argument must be a
string, and a malformed document raises json.JSONDecodeError (a subclass of
ValueError). -/
def jsonLoadsPy : PyVal → Except PyErr PyVal
  | .str s =>
    match jloads s with
    | .ok v => .ok v
    | .error m => .error (.valueError m)
  | v => .error (.typeError
      ("the JSON object must be str, bytes or bytearray, not " ++ pyTypeName v))

/-! ## Schemas (src/knowledge_base_agent/schemas.py)

Each pydantic model is a Lean structure together with a validation function
modelling its constructor.  Validation failures carry a condensed one-line
rendering of the pydantic message; `SomeModel(**x)` with a non-mapping x is
the TypeError Python raises before pydantic runs.  Pydantic ignores extra
keys (the default model config), requires declared fields without defaults,
and for an int field accepts an int or a numeric string (lax coercion). -/

/-- InputSchema (schemas.py lines 4-6): func_name required string,
func_input_data optional dict defaulting to None. -/
structure InputSchema where
  func_name : String
  func_input_data : PyVal

/-- QueryInput (schemas.py lines 8-10): query required string, top_k int
defaulting to 2. -/
structure QueryInput where
  query : String
  top_k : Int

/-- StoreInput (schemas.py lines 12-14): text required string, metadata dict
defaulting to empty. -/
structure StoreInput where
  text : String
  metadata : List (String × PyVal)

/-- The TypeError raised by f(**x) when x is not a mapping. -/
def starStarErr (v : PyVal) : PyErr :=
  .typeError ("argument of type \x27" ++ pyTypeName v ++ "\x27 is not a mapping")

/-- Validation of InputSchema(**x) (run.py line 129). -/
def validateInputSchema : PyVal → Except PyErr InputSchema
  | .dict fs =>
    match fs.lookup "func_name" with
    | some (.str n) =>
      (match fs.lookup "func_input_data" with
       | Option.none => .ok ⟨n, .none⟩
       | some .none => .ok ⟨n, .none⟩
       | some (.dict d) => .ok ⟨n, .dict d⟩
       | some _ => .error (.validationError
           "1 validation error for InputSchema: func_input_data must be a valid dictionary"))
    | some _ => .error (.validationError
        "1 validation error for InputSchema: func_name must be a valid string")
    | Option.none => .error (.validationError
        "1 validation error for InputSchema: func_name field required")
  | v => .error (starStarErr v)

/-- Validation of QueryInput(**x) (run.py line 60).  There is no constraint
beyond the field types: an empty query string validates, and any integer
top_k validates, positive or not. -/
def validateQueryInput : PyVal → Except PyErr QueryInput
  | .dict fs =>
    match fs.lookup "query" with
    | some (.str q) =>
      (match fs.lookup "top_k" with
       | Option.none => .ok ⟨q, 2⟩
       | some (.int n) => .ok ⟨q, n⟩
       | some (.str s) =>
         (match s.toInt? with
          | some n => .ok ⟨q, n⟩
          | Option.none => .error (.validationError
              "1 validation error for QueryInput: top_k must be a valid integer"))
       | some _ => .error (.validationError
           "1 validation error for QueryInput: top_k must be a valid integer"))
    | some _ => .error (.validationError
        "1 validation error for QueryInput: query must be a valid string")
    | Option.none => .error (.validationError
        "1 validation error for QueryInput: query field required")
  | v => .error (starStarErr v)

/-- Validation of StoreInput(**x) (run.py line 43). -/
def validateStoreInput : PyVal → Except PyErr StoreInput
  | .dict fs =>
    match fs.lookup "text" with
    | some (.str t) =>
      (match fs.lookup "metadata" with
       | Option.none => .ok ⟨t, []⟩
       | some (.dict m) => .ok ⟨t, m⟩
       | some _ => .error (.validationError
           "1 validation error for StoreInput: metadata must be a valid dictionary"))
    | some _ => .error (.validationError
        "1 validation error for StoreInput: text must be a valid string")
    | Option.none => .error (.validationError
        "1 validation error for StoreInput: text field required")
  | v => .error (starStarErr v)

/-- StoreInput.model_dump() (run.py line 46). -/
def StoreInput.model_dump (si : StoreInput) : PyVal :=
  .dict [("text", .str si.text), ("metadata", .dict si.metadata)]

/-! ## External naptha-sdk shapes

AgentDeployment, AgentRunInput and the KnowledgeBase client come from the
external naptha_sdk package, an external collaborator of this repository.
They are modelled after the inbound and outbound call shapes of the
specification (sections 2, 3 and 6): a deployment carries the list of
knowledge-base sub-deployments, the run input carries deployment, consumer
identity, signature and the inner operation envelope, and the client
exposes create (bind to one deployment) and run (invoke a named remote
function).  The backend itself is an oracle supplied per theorem. -/

/-- Deployment descriptor: only the kb_deployments list is relevant to this
adapter (run.py lines 35, 75, 131). -/
structure AgentDeployment where
  kb_deployments : List PyVal

/-- Parsed outer envelope AgentRunInput(**module_run) (run.py line 128),
with inputs still the raw inner mapping. -/
structure AgentRunInput where
  consumer_id : String
  signature : String
  deployment : AgentDeployment
  inputs : PyVal

/-- Validation of AgentRunInput(**module_run): the recognized outer shape
per the specification (deployment reference, consumer identity, signature,
inner operation envelope). -/
def validateAgentRunInput : PyVal → Except PyErr AgentRunInput
  | .dict fs =>
    match fs.lookup "consumer_id" with
    | some (.str cid) =>
      (match fs.lookup "signature" with
       | some (.str sig) =>
         (match fs.lookup "deployment" with
          | some (.dict dfs) =>
            let kbs : List PyVal :=
              match dfs.lookup "kb_deployments" with
              | some (.list ds) => ds
              | _ => []
            (match fs.lookup "inputs" with
             | some ins => .ok ⟨cid, sig, ⟨kbs⟩, ins⟩
             | Option.none => .error (.validationError
                 "1 validation error for AgentRunInput: inputs field required"))
          | _ => .error (.validationError
              "1 validation error for AgentRunInput: deployment field required"))
       | _ => .error (.validationError
           "1 validation error for AgentRunInput: signature field required"))
    | _ => .error (.validationError
        "1 validation error for AgentRunInput: consumer_id field required")
  | v => .error (starStarErr v)

/-- The signed call envelope KBRunInput (run.py lines 29-37); the inner
inputs dict is flattened into the two func fields. -/
structure KBRunInput where
  consumer_id : String
  func_name : String
  func_input_data : PyVal
  deployment : PyVal
  signature : String

/-- One outbound interaction with the external backend. -/
inductive BackendEvent where
  | create (dep : PyVal)
  | runCall (inp : KBRunInput)

/-- The external backend as an oracle: the outcome of market_kb.create on a
deployment and of market_kb.run on an envelope.  The reply of run is the
already-dumped mapping (run.py lines 78-81 call model_dump when present;
the model works with the resulting plain value directly). -/
structure Backend where
  createResult : PyVal → Except PyErr Unit
  runResult : KBRunInput → Except PyErr PyVal

/-- A stub backend whose create succeeds and whose run always returns the
given reply. -/
def stubBackend (reply : PyVal) : Backend :=
  { createResult := fun _ => .ok ()
    runResult := fun _ => .ok reply }

/-- The module_run value the dispatcher methods receive: the outer envelope
after run.py line 129 replaced inputs with the parsed InputSchema. -/
structure ModelRun where
  consumer_id : String
  signature : String
  deployment : AgentDeployment
  inputs : InputSchema

/-- The dispatcher object (run.py lines 18-24); market_kb is passed
alongside as the Backend oracle. -/
structure KnowledgeBaseAgent where
  deployment : AgentDeployment
  consumer_id : String

/-- self.deployment.kb_deployments[0]: IndexError when the list is empty. -/
def kbDep0 (d : AgentDeployment) : Except PyErr PyVal :=
  match d.kb_deployments with
  | [] => .error (.indexError "list index out of range")
  | x :: _ => .ok x

/-- Helper _create_kb_input (run.py lines 26-37): builds the signed KB
envelope; indexing kb_deployments[0] can raise. -/
def KnowledgeBaseAgent._create_kb_input (agent : KnowledgeBaseAgent)
    (func_name : String) (signature : String) (func_input_data : PyVal) :
    Except PyErr KBRunInput :=
  match kbDep0 agent.deployment with
  | .error e => .error e
  | .ok d => .ok ⟨agent.consumer_id, func_name, func_input_data, d, signature⟩

/-! ## Dispatcher operations (run.py lines 39-122)

Each operation returns the value produced by its Python counterpart
together with the ordered list of backend interactions it attempted.  The
try/except wrapping each method body is the outermost match: any modelled
exception inside the body becomes the error mapping the except clause
returns. -/

/-- The error mapping produced by the except clause of query
(run.py lines 105-111). -/
def queryErrDict (m : String) : PyVal :=
  .dict [("status", .str "error"),
         ("message", .str ("Error querying knowledge base: " ++ m)),
         ("results", .list [])]

/-- Lines 83-103 of run.py: inspect the backend reply and either reshape
the nested result or propagate the reported status and message.  The
reshape branch resolves the global name json before evaluating the
argument of json.loads, so when the module was imported rather than run as
a script (jsonBound = false) that branch raises NameError immediately. -/
def queryReshape (response_data : PyVal) (jsonBound : Bool) : Except PyErr PyVal :=
  match pyDotGet response_data "status" with
  | .error e => .error e
  | .ok st =>
    if pyEqStr st "completed" && pyHasKey response_data "results" then
      if !jsonBound then .error (.nameError "name \x27json\x27 is not defined")
      else
        match pySubscriptKey response_data "results" with
        | .error e => .error e
        | .ok rlist =>
          match pyIndexNat rlist 0 with
          | .error e => .error e
          | .ok r0 =>
            match jsonLoadsPy r0 with
            | .error e => .error e
            | .ok parsed =>
              match pySubscriptKey parsed "results" with
              | .error e => .error e
              | .ok results =>
                match pyIndexNat results 0 with
                | .error e => .error e
                | .ok res0 =>
                  match jsonLoadsPy res0 with
                  | .error e => .error e
                  | .ok parsed2 =>
                    match pySubscriptKey parsed2 "data" with
                    | .error e => .error e
                    | .ok data =>
                      if pyFalsy data then
                        .ok (.dict [("status", .str "success"),
                          ("message", .str "No relevant information found for your query."),
                          ("results", .list [])])
                      else
                        .ok (.dict [("status", .str "success"),
                          ("results", .str (jdumps data))])
    else
      .ok (.dict [("status", pyGetD response_data "status" (.str "error")),
        ("message", pyGetD response_data "message"
          (.str "Unknown error in knowledge base query")),
        ("results", .list [])])

/-- Method query (run.py lines 56-111). -/
def KnowledgeBaseAgent.query (agent : KnowledgeBaseAgent) (model_run : ModelRun)
    (B : Backend) (jsonBound : Bool) : PyVal × List BackendEvent :=
  match validateQueryInput model_run.inputs.func_input_data with
  | .error e => (queryErrDict e.msg, [])
  | .ok query_input =>
    let kb_query_data : PyVal :=
      .dict [("query", .str query_input.query), ("top_k", .int query_input.top_k)]
    match agent._create_kb_input "search" model_run.signature kb_query_data with
    | .error e => (queryErrDict e.msg, [])
    | .ok kb_run_input =>
      match kbDep0 agent.deployment with
      | .error e => (queryErrDict e.msg, [])
      | .ok d =>
        match B.createResult d with
        | .error e => (queryErrDict e.msg, [.create d])
        | .ok _ =>
          match B.runResult kb_run_input with
          | .error e => (queryErrDict e.msg, [.create d, .runCall kb_run_input])
          | .ok kb_response =>
            (match queryReshape kb_response jsonBound with
             | .ok v => v
             | .error e => queryErrDict e.msg,
             [.create d, .runCall kb_run_input])

/-- Method store (run.py lines 39-54). -/
def KnowledgeBaseAgent.store (agent : KnowledgeBaseAgent) (model_run : ModelRun)
    (B : Backend) : PyVal × List BackendEvent :=
  match validateStoreInput model_run.inputs.func_input_data with
  | .error e => (.dict [("status", .str "error"), ("message", .str e.msg)], [])
  | .ok store_input =>
    match agent._create_kb_input "ingest_knowledge" model_run.signature
        store_input.model_dump with
    | .error e => (.dict [("status", .str "error"), ("message", .str e.msg)], [])
    | .ok kb_run_input =>
      match B.runResult kb_run_input with
      | .error e =>
        (.dict [("status", .str "error"), ("message", .str e.msg)], [.runCall kb_run_input])
      | .ok reply => (reply, [.runCall kb_run_input])

/-- Method clear (run.py lines 113-122); the source leaves func_input_data
at its default None. -/
def KnowledgeBaseAgent.clear (agent : KnowledgeBaseAgent) (model_run : ModelRun)
    (B : Backend) : PyVal × List BackendEvent :=
  match agent._create_kb_input "clear" model_run.signature .none with
  | .error e => (.dict [("status", .str "error"), ("message", .str e.msg)], [])
  | .ok kb_run_input =>
    match B.runResult kb_run_input with
    | .error e =>
      (.dict [("status", .str "error"), ("message", .str e.msg)], [.runCall kb_run_input])
    | .ok reply => (reply, [.runCall kb_run_input])

/-! ## Entry point (run.py lines 124-141) -/

/-- The attributes of a KnowledgeBaseAgent instance that getattr can
resolve: the three operations and the remaining instance members set in
the constructor or defined on the class.  Inherited dunder attributes are
omitted; no claim concerns them. -/
inductive AgentMember where
  | storeM
  | queryM
  | clearM
  | deploymentA
  | consumer_idA
  | market_kbA
  | create_kb_inputA

/-- Model of getattr(agent, func_name) at run.py line 133: getattr is
called without a default, so an unknown name raises AttributeError there,
before the ValueError guard on the next line is reached. -/
def getattrAgent (name : String) : Except PyErr AgentMember :=
  if name = "store" then .ok .storeM
  else if name = "query" then .ok .queryM
  else if name = "clear" then .ok .clearM
  else if name = "deployment" then .ok .deploymentA
  else if name = "consumer_id" then .ok .consumer_idA
  else if name = "market_kb" then .ok .market_kbA
  else if name = "_create_kb_input" then .ok .create_kb_inputA
  else .error (.attributeError
      ("\x27KnowledgeBaseAgent\x27 object has no attribute \x27" ++ name ++ "\x27"))

/-- Python truthiness of the resolved attribute, tested by line 134
(`if not method:`).  Bound methods and the deployment and client objects
are always truthy; the consumer_id string is falsy when empty. -/
def memberTruthy (agent : KnowledgeBaseAgent) : AgentMember → Bool
  | .consumer_idA => agent.consumer_id != ""
  | _ => true

/-- Line 137, `await method(module_run)`: the three operations run their
bodies; calling any other attribute with this argument list raises
TypeError. -/
def callMember (agent : KnowledgeBaseAgent) (mr : ModelRun) (B : Backend)
    (jsonBound : Bool) : AgentMember → Except PyErr (PyVal × List BackendEvent)
  | .storeM => .ok (agent.store mr B)
  | .queryM => .ok (agent.query mr B jsonBound)
  | .clearM => .ok (agent.clear mr B)
  | .deploymentA => .error (.typeError "\x27AgentDeployment\x27 object is not callable")
  | .consumer_idA => .error (.typeError "\x27str\x27 object is not callable")
  | .market_kbA => .error (.typeError "\x27KnowledgeBase\x27 object is not callable")
  | .create_kb_inputA => .error (.typeError
      "_create_kb_input() missing 1 required positional argument: \x27signature\x27")

/-- The body of the try block of run (run.py lines 128-138), threading the
trace of backend interactions through both outcomes. -/
def runPipeline (module_run : PyVal) (B : Backend) (jsonBound : Bool) :
    Except (PyErr × List BackendEvent) (PyVal × List BackendEvent) :=
  match validateAgentRunInput module_run with
  | .error e => .error (e, [])
  | .ok ar =>
    match validateInputSchema ar.inputs with
    | .error e => .error (e, [])
    | .ok ins =>
      let agent : KnowledgeBaseAgent := ⟨ar.deployment, ar.consumer_id⟩
      let mr : ModelRun := ⟨ar.consumer_id, ar.signature, ar.deployment, ins⟩
      match kbDep0 ar.deployment with
      | .error e => .error (e, [])
      | .ok d =>
        match B.createResult d with
        | .error e => .error (e, [.create d])
        | .ok _ =>
          match getattrAgent ins.func_name with
          | .error e => .error (e, [.create d])
          | .ok m =>
            if !(memberTruthy agent m) then
              .error (.valueError ("Invalid function name: " ++ ins.func_name), [.create d])
            else
              match callMember agent mr B jsonBound m with
              | .error e => .error (e, [.create d])
              | .ok (v, tr) => .ok (v, .create d :: tr)

/-- Entry point run (run.py lines 124-141): the except clause converts any
exception from the pipeline into the uniform error mapping. -/
def run (module_run : PyVal) (B : Backend) (jsonBound : Bool) :
    PyVal × List BackendEvent :=
  match runPipeline module_run B jsonBound with
  | .ok r => r
  | .error (e, tr) =>
    (.dict [("status", .str "error"), ("message", .str e.msg)], tr)

/-! ## Concrete values used by counterexamples and witnesses -/

/-- A deployment with one knowledge-base sub-deployment. -/
def dep0 : AgentDeployment := ⟨[.str "kb0"]⟩

/-- A dispatcher instance bound to dep0. -/
def agent0 : KnowledgeBaseAgent := ⟨dep0, "user1"⟩

/-- One Knowledge Item, with every field of the response schema. -/
def item0 : PyVal := .dict [("chunk", .str "hello"), ("chunk_start", .int 0),
  ("chunk_end", .int 5), ("full_text", .str "hello"), ("metadata", .dict []),
  ("source", .none), ("timestamp", .str "2024-01-01T00:00:00")]

/-- Inner backend document holding exactly one Knowledge Item. -/
def s2w : String := jdumps (.dict [("data", .list [item0])])

/-- Outer backend document wrapping s2w, as the backend nests its result. -/
def s1w : String := jdumps (.dict [("results", .list [.str s2w])])

/-- A backend reply carrying exactly one Knowledge Item. -/
def reply4 : PyVal := .dict [("status", .str "completed"), ("results", .list [.str s1w])]

/-- Parsed module_run for a query with query "hello" and top_k 1. -/
def mr4 : ModelRun :=
  ⟨"user1", "sig", dep0, ⟨"query", .dict [("query", .str "hello"), ("top_k", .int 1)]⟩⟩

/-- The envelope query builds for mr4. -/
def env4 : KBRunInput :=
  ⟨"user1", "search", .dict [("query", .str "hello"), ("top_k", .int 1)], .str "kb0", "sig"⟩

/-- A backend reply that reports status success (not the completed marker
the code tests for) while carrying decodable results. -/
def reply2 : PyVal :=
  .dict [("status", .str "success"), ("message", .str "ok"), ("results", .list [.str s1w])]

/-- Inner backend document with an empty data sequence. -/
def s2e : String := jdumps (.dict [("data", .list [])])

/-- Outer backend document wrapping s2e. -/
def s1e : String := jdumps (.dict [("results", .list [.str s2e])])

/-- A backend reply whose nested result holds no matches. -/
def reply7 : PyVal := .dict [("status", .str "completed"), ("results", .list [.str s1e])]

/-- Parsed module_run for a query with query "q" and top_k left absent. -/
def mr7 : ModelRun := ⟨"user1", "sig", dep0, ⟨"query", .dict [("query", .str "q")]⟩⟩

/-- The envelope query builds for mr7: top_k defaulted to 2. -/
def env7 : KBRunInput :=
  ⟨"user1", "search", .dict [("query", .str "q"), ("top_k", .int 2)], .str "kb0", "sig"⟩

/-- Parsed module_run for a query with an empty query string and top_k 0. -/
def mr5 : ModelRun :=
  ⟨"user1", "sig", dep0, ⟨"query", .dict [("query", .str ""), ("top_k", .int 0)]⟩⟩

/-- The envelope query builds for mr5. -/
def env5 : KBRunInput :=
  ⟨"user1", "search", .dict [("query", .str ""), ("top_k", .int 0)], .str "kb0", "sig"⟩

/-- An inbound request whose inner func_name names no attribute. -/
def req1 : PyVal := .dict [("consumer_id", .str "user1"),
  ("deployment", .dict [("kb_deployments", .list [.str "kb0"])]),
  ("signature", .str "sig"),
  ("inputs", .dict [("func_name", .str "nonexistent"), ("func_input_data", .dict [])])]

/-- Parsed module_run for a store payload missing the text field. -/
def mr8 : ModelRun :=
  ⟨"user1", "sig", dep0, ⟨"store", .dict [("metadata", .dict [("source", .str "unit-test")])]⟩⟩

/-- Parsed module_run for a query payload missing the query field. -/
def mrBad : ModelRun :=
  ⟨"user1", "sig", dep0, ⟨"query", .dict [("top_k", .int 3)]⟩⟩

/-- Parsed module_run for a valid store payload. -/
def mr6s : ModelRun :=
  ⟨"user1", "sig", dep0,
   ⟨"store", .dict [("text", .str "hello world"),
     ("metadata", .dict [("source", .str "unit-test")])]⟩⟩

/-- The envelope store builds for mr6s. -/
def env6s : KBRunInput :=
  ⟨"user1", "ingest_knowledge",
   .dict [("text", .str "hello world"),
     ("metadata", .dict [("source", .str "unit-test")])],
   .str "kb0", "sig"⟩

/-- Parsed module_run for a clear request. -/
def mr6c : ModelRun := ⟨"user1", "sig", dep0, ⟨"clear", .none⟩⟩

/-- The envelope clear builds for mr6c. -/
def env6c : KBRunInput := ⟨"user1", "clear", .none, .str "kb0", "sig"⟩

set_option maxRecDepth 400000

/-! ## Helper lemmas -/

/-- Inversion for the envelope builder: the payload placed in the envelope
is exactly the func_input_data argument. -/
theorem create_kb_input_inv (agent : KnowledgeBaseAgent) (fn sig : String)
    (fid : PyVal) (env : KBRunInput)
    (h : agent._create_kb_input fn sig fid = .ok env) :
    env.func_input_data = fid := by
  unfold KnowledgeBaseAgent._create_kb_input at h
  cases hk : kbDep0 agent.deployment with
  | error e => rw [hk] at h; cases h
  | ok d => rw [hk] at h; cases h; rfl

/-- When validation, envelope construction and the create call succeed,
the trace of query is exactly a create followed by one run call, whatever
the run call returns. -/
theorem query_trace_of_valid (agent : KnowledgeBaseAgent) (mr : ModelRun)
    (B : Backend) (jb : Bool) (qi : QueryInput) (env : KBRunInput) (d : PyVal)
    (hval : validateQueryInput mr.inputs.func_input_data = .ok qi)
    (henv : agent._create_kb_input "search" mr.signature
      (.dict [("query", .str qi.query), ("top_k", .int qi.top_k)]) = .ok env)
    (hdep : kbDep0 agent.deployment = .ok d)
    (hcreate : B.createResult d = .ok ()) :
    (agent.query mr B jb).2 = [.create d, .runCall env] := by
  simp only [KnowledgeBaseAgent.query, hval, henv, hdep, hcreate]
  cases hr : B.runResult env <;> simp only [hr]

/-- Behaviour of lines 98-103: when the reply does not report status
completed together with a results field, the backend status and message
are propagated with their defaults. -/
theorem queryReshape_else (fs : List (String × PyVal)) (jb : Bool)
    (hcond : (pyEqStr (pyGetD (.dict fs) "status" .none) "completed" &&
      pyHasKey (.dict fs) "results") = false) :
    queryReshape (.dict fs) jb =
      .ok (.dict [("status", pyGetD (.dict fs) "status" (.str "error")),
        ("message", pyGetD (.dict fs) "message"
          (.str "Unknown error in knowledge base query")),
        ("results", .list [])]) := by
  simp only [pyGetD] at hcond
  simp only [queryReshape, pyDotGet]
  cases hs : List.lookup "status" fs with
  | none => rw [hs] at hcond; simp only [hcond, Bool.false_eq_true, if_false]
  | some v => rw [hs] at hcond; simp only [hcond, Bool.false_eq_true, if_false]

/-- Behaviour of lines 83-96 in script mode when every step of the nested
decode succeeds and the decoded data is truthy: the data sequence is
serialized back to a JSON string under the results key. -/
theorem queryReshape_success_chain (fs : List (String × PyVal))
    (rv r0 p1 rs r1 p2 data : PyVal)
    (hstatus : pyGetD (.dict fs) "status" .none = .str "completed")
    (hres : fs.lookup "results" = some rv)
    (h1 : pyIndexNat rv 0 = .ok r0)
    (h2 : jsonLoadsPy r0 = .ok p1)
    (h3 : pySubscriptKey p1 "results" = .ok rs)
    (h4 : pyIndexNat rs 0 = .ok r1)
    (h5 : jsonLoadsPy r1 = .ok p2)
    (h6 : pySubscriptKey p2 "data" = .ok data)
    (h7 : pyFalsy data = false) :
    queryReshape (.dict fs) true =
      .ok (.dict [("status", .str "success"), ("results", .str (jdumps data))]) := by
  simp only [pyGetD] at hstatus
  simp only [queryReshape, pyDotGet, pyHasKey, hres, Option.isSome_some, Bool.and_true]
  cases hs : List.lookup "status" fs with
  | none => rw [hs] at hstatus; cases hstatus
  | some v =>
    rw [hs] at hstatus
    have hv : v = PyVal.str "completed" := hstatus
    subst hv
    have hsub0 : pySubscriptKey (PyVal.dict fs) "results" = .ok rv := by
      simp only [pySubscriptKey, hres]
    simp only [pyEqStr, beq_self_eq_true, if_true, Bool.not_true, Bool.false_eq_true,
      if_false, hsub0, h1, h2, h3, h4, h5, h6, h7]

/-! ## Claim theorems -/

/-- C8: for every store payload in which the text field is missing, store
returns the error mapping produced by the validation failure and its trace
of backend interactions is empty: no KB envelope is built and no remote
call is made. -/
theorem store_missing_text_no_backend (agent : KnowledgeBaseAgent)
    (mr : ModelRun) (B : Backend) (fs : List (String × PyVal))
    (hfid : mr.inputs.func_input_data = .dict fs)
    (htext : fs.lookup "text" = Option.none) :
    agent.store mr B =
      (.dict [("status", .str "error"),
        ("message", .str "1 validation error for StoreInput: text field required")], []) := by
  simp only [KnowledgeBaseAgent.store, hfid, validateStoreInput, htext, PyErr.msg]

/-- Witness for C8 at a concrete payload carrying only metadata. -/
theorem store_missing_text_no_backend_witness :
    agent0.store mr8 (stubBackend reply4) =
      (.dict [("status", .str "error"),
        ("message", .str "1 validation error for StoreInput: text field required")], []) :=
  store_missing_text_no_backend agent0 mr8 (stubBackend reply4) _ rfl rfl

/-- C3: when run.py is imported as a module the name json is unbound, so
for every backend reply reporting status completed with a results field,
query raises NameError internally and the except clause returns the error
mapping with empty results; the success branch is unreachable in that
mode. -/
theorem query_module_mode_name_error (agent : KnowledgeBaseAgent)
    (mr : ModelRun) (B : Backend) (qi : QueryInput) (env : KBRunInput)
    (d : PyVal) (fs : List (String × PyVal))
    (hval : validateQueryInput mr.inputs.func_input_data = .ok qi)
    (henv : agent._create_kb_input "search" mr.signature
      (.dict [("query", .str qi.query), ("top_k", .int qi.top_k)]) = .ok env)
    (hdep : kbDep0 agent.deployment = .ok d)
    (hcreate : B.createResult d = .ok ())
    (hrun : B.runResult env = .ok (.dict fs))
    (hstatus : pyEqStr (pyGetD (.dict fs) "status" .none) "completed" = true)
    (hres : (fs.lookup "results").isSome = true) :
    agent.query mr B false =
      (queryErrDict "name \x27json\x27 is not defined", [.create d, .runCall env]) := by
  have hr : queryReshape (PyVal.dict fs) false =
      .error (.nameError "name \x27json\x27 is not defined") := by
    simp only [pyGetD] at hstatus
    simp only [queryReshape, pyDotGet, pyHasKey, hres]
    cases hs : List.lookup "status" fs with
    | none => rw [hs] at hstatus; simp [pyEqStr] at hstatus
    | some v => rw [hs] at hstatus; simp only [hstatus, Bool.true_and, if_true]; rfl
  simp only [KnowledgeBaseAgent.query, hval, henv, hdep, hcreate, hrun, hr, PyErr.msg]

/-- Witness for C3: a stub backend reply carrying one item, received with
the module imported, yields the NameError-derived error mapping. -/
theorem query_module_mode_name_error_witness :
    agent0.query mr4 (stubBackend reply4) false =
      (queryErrDict "name \x27json\x27 is not defined",
       [.create (.str "kb0"), .runCall env4]) :=
  query_module_mode_name_error agent0 mr4 (stubBackend reply4) ⟨"hello", 1⟩ env4
    (.str "kb0") _ rfl rfl rfl rfl rfl rfl rfl

/-- C10: for every inbound request and every exception raised anywhere in
the modelled pipeline, the entry point run returns the uniform error
mapping built from the exception text, with the trace of whatever backend
interactions had already been attempted; when no exception occurs it
returns the dispatched result.  run itself is a total function: no
exception escapes it. -/
theorem run_normalizes_all_exceptions (module_run : PyVal) (B : Backend)
    (jb : Bool) :
    (∃ v tr, runPipeline module_run B jb = .ok (v, tr) ∧
      run module_run B jb = (v, tr)) ∨
    (∃ e tr, runPipeline module_run B jb = .error (e, tr) ∧
      run module_run B jb =
        (.dict [("status", .str "error"), ("message", .str (PyErr.msg e))], tr)) := by
  cases h : runPipeline module_run B jb with
  | ok r =>
    obtain ⟨v, tr⟩ := r
    exact .inl ⟨v, tr, rfl, by simp only [run, h]⟩
  | error p =>
    obtain ⟨e, tr⟩ := p
    exact .inr ⟨e, tr, rfl, by simp only [run, h]⟩

/-- C1 counterexample: at a well-formed request whose inner func_name is
nonexistent, run does return status error, but the trace already contains
the backend connection made at line 131 before the name was examined, and
the message is the AttributeError text of the failed attribute lookup, not
the Invalid-function-name text of the unreachable ValueError guard. -/
theorem run_nonexistent_rejected_after_connect_cex :
    run req1 (stubBackend reply4) true =
      (.dict [("status", .str "error"),
        ("message", .str "\x27KnowledgeBaseAgent\x27 object has no attribute \x27nonexistent\x27")],
       [.create (.str "kb0")]) ∧
    "\x27KnowledgeBaseAgent\x27 object has no attribute \x27nonexistent\x27" ≠
      "Invalid function name: nonexistent" :=
  ⟨rfl, by decide⟩

/-- C1 amended: for every well-formed request whose inner func_name names
no attribute of the dispatcher, run returns status error with the
AttributeError text; no backend envelope is constructed and no backend run
call is made, but the backend connection of line 131 has already been
attempted, so the trace is exactly that one create event. -/
theorem run_unknown_name_attribute_error (module_run : PyVal) (B : Backend)
    (jb : Bool) (ar : AgentRunInput) (ins : InputSchema) (d : PyVal) (e : PyErr)
    (hout : validateAgentRunInput module_run = .ok ar)
    (hins : validateInputSchema ar.inputs = .ok ins)
    (hdep : kbDep0 ar.deployment = .ok d)
    (hcreate : B.createResult d = .ok ())
    (hattr : getattrAgent ins.func_name = .error e) :
    run module_run B jb =
      (.dict [("status", .str "error"), ("message", .str e.msg)], [.create d]) := by
  simp only [run, runPipeline, hout, hins, hdep, hcreate, hattr]

/-- Witness for C1 amended at the concrete nonexistent request. -/
theorem run_unknown_name_attribute_error_witness :
    run req1 (stubBackend reply4) false =
      (.dict [("status", .str "error"),
        ("message", .str "\x27KnowledgeBaseAgent\x27 object has no attribute \x27nonexistent\x27")],
       [.create (.str "kb0")]) :=
  run_unknown_name_attribute_error req1 (stubBackend reply4) false
    ⟨"user1", "sig", ⟨[.str "kb0"]⟩,
      .dict [("func_name", .str "nonexistent"), ("func_input_data", .dict [])]⟩
    ⟨"nonexistent", .dict []⟩ (.str "kb0")
    (.attributeError "\x27KnowledgeBaseAgent\x27 object has no attribute \x27nonexistent\x27")
    rfl rfl rfl rfl rfl

/-- C2 counterexample: a backend reply reporting status success with a
present, decodable, non-empty results field is not reshaped — the else
branch returns it with results emptied — while the same reply with status
completed is reshaped.  The reshape is therefore not triggered by a
backend-reported success status. -/
theorem query_success_status_not_reshaped_cex :
    queryReshape reply2 true =
      .ok (.dict [("status", .str "success"), ("message", .str "ok"),
        ("results", .list [])]) ∧
    queryReshape reply4 true =
      .ok (.dict [("status", .str "success"),
        ("results", .str (jdumps (.list [item0])))]) :=
  ⟨rfl, rfl⟩

/-- C2 amended: query reshapes the nested result exactly when the backend
reports status completed and a results field is present (and, in script
mode, the nested decode succeeds); for any other reply the else branch
returns the backend status, defaulting to error, and the backend message,
defaulting to a generic text, with an empty results list. -/
theorem query_reshape_iff_completed :
    (∀ (fs : List (String × PyVal)) (jb : Bool),
      (pyEqStr (pyGetD (.dict fs) "status" .none) "completed" &&
        pyHasKey (.dict fs) "results") = false →
      queryReshape (.dict fs) jb =
        .ok (.dict [("status", pyGetD (.dict fs) "status" (.str "error")),
          ("message", pyGetD (.dict fs) "message"
            (.str "Unknown error in knowledge base query")),
          ("results", .list [])])) ∧
    (∀ (fs : List (String × PyVal)) (rv r0 p1 rs r1 p2 data : PyVal),
      pyGetD (.dict fs) "status" .none = .str "completed" →
      fs.lookup "results" = some rv →
      pyIndexNat rv 0 = .ok r0 →
      jsonLoadsPy r0 = .ok p1 →
      pySubscriptKey p1 "results" = .ok rs →
      pyIndexNat rs 0 = .ok r1 →
      jsonLoadsPy r1 = .ok p2 →
      pySubscriptKey p2 "data" = .ok data →
      pyFalsy data = false →
      queryReshape (.dict fs) true =
        .ok (.dict [("status", .str "success"),
          ("results", .str (jdumps data))])) :=
  ⟨fun fs jb hcond => queryReshape_else fs jb hcond,
   fun fs rv r0 p1 rs r1 p2 data h0 hr h1 h2 h3 h4 h5 h6 h7 =>
     queryReshape_success_chain fs rv r0 p1 rs r1 p2 data h0 hr h1 h2 h3 h4 h5 h6 h7⟩

/-- Witness for C2 amended: the else branch at the success-status reply
and the reshape at the completed-status reply, both concrete. -/
theorem query_reshape_iff_completed_witness :
    queryReshape reply2 true =
      .ok (.dict [("status", pyGetD reply2 "status" (.str "error")),
        ("message", pyGetD reply2 "message"
          (.str "Unknown error in knowledge base query")),
        ("results", .list [])]) ∧
    queryReshape reply4 true =
      .ok (.dict [("status", .str "success"),
        ("results", .str (jdumps (.list [item0])))]) :=
  ⟨query_reshape_iff_completed.1
     [("status", .str "success"), ("message", .str "ok"), ("results", .list [.str s1w])]
     true rfl,
   query_reshape_iff_completed.2
     [("status", .str "completed"), ("results", .list [.str s1w])]
     (.list [.str s1w]) (.str s1w) (.dict [("results", .list [.str s2w])])
     (.list [.str s2w]) (.str s2w) (.dict [("data", .list [item0])])
     (.list [item0]) rfl rfl rfl rfl rfl rfl rfl rfl rfl⟩

/-- C4 counterexample: in script mode, against a stub backend returning
exactly one Knowledge Item, query returns a mapping whose results field is
a JSON string, and which has no data field at all — not a Query Response
whose data sequence contains the item. -/
theorem query_one_item_shape_cex :
    (agent0.query mr4 (stubBackend reply4) true).1 =
      .dict [("status", .str "success"),
        ("results", .str (jdumps (.list [item0])))] ∧
    pyHasKey (agent0.query mr4 (stubBackend reply4) true).1 "data" = false :=
  ⟨rfl, rfl⟩

/-- C4 amended: in script mode, for every backend reply whose nested
decode yields a data sequence holding exactly one item, query returns
status success together with the JSON serialization of that one-item
sequence under the results key, so the item itself is carried unmodified
inside the serialized sequence; the declared QueryResponse schema with its
data field is never produced.  In import mode the branch instead fails
with NameError. -/
theorem query_one_item_serialized (agent : KnowledgeBaseAgent) (mr : ModelRun)
    (B : Backend) (qi : QueryInput) (env : KBRunInput) (d : PyVal)
    (fs : List (String × PyVal)) (rv r0 p1 rs r1 p2 item : PyVal)
    (hval : validateQueryInput mr.inputs.func_input_data = .ok qi)
    (henv : agent._create_kb_input "search" mr.signature
      (.dict [("query", .str qi.query), ("top_k", .int qi.top_k)]) = .ok env)
    (hdep : kbDep0 agent.deployment = .ok d)
    (hcreate : B.createResult d = .ok ())
    (hrun : B.runResult env = .ok (.dict fs))
    (hstatus : pyGetD (.dict fs) "status" .none = .str "completed")
    (hres : fs.lookup "results" = some rv)
    (h1 : pyIndexNat rv 0 = .ok r0)
    (h2 : jsonLoadsPy r0 = .ok p1)
    (h3 : pySubscriptKey p1 "results" = .ok rs)
    (h4 : pyIndexNat rs 0 = .ok r1)
    (h5 : jsonLoadsPy r1 = .ok p2)
    (h6 : pySubscriptKey p2 "data" = .ok (.list [item])) :
    agent.query mr B true =
      (.dict [("status", .str "success"),
        ("results", .str (jdumps (.list [item])))],
       [.create d, .runCall env]) := by
  have hshape : queryReshape (.dict fs) true =
      .ok (.dict [("status", .str "success"),
        ("results", .str (jdumps (.list [item])))]) :=
    queryReshape_success_chain fs rv r0 p1 rs r1 p2 (.list [item])
      hstatus hres h1 h2 h3 h4 h5 h6 rfl
  simp only [KnowledgeBaseAgent.query, hval, henv, hdep, hcreate, hrun, hshape]

/-- Witness for C4 amended at the concrete one-item stub reply. -/
theorem query_one_item_serialized_witness :
    agent0.query mr4 (stubBackend reply4) true =
      (.dict [("status", .str "success"),
        ("results", .str (jdumps (.list [item0])))],
       [.create (.str "kb0"), .runCall env4]) :=
  query_one_item_serialized agent0 mr4 (stubBackend reply4) ⟨"hello", 1⟩ env4
    (.str "kb0") _ (.list [.str s1w]) (.str s1w)
    (.dict [("results", .list [.str s2w])]) (.list [.str s2w]) (.str s2w)
    (.dict [("data", .list [item0])]) item0
    rfl rfl rfl rfl rfl rfl rfl rfl rfl rfl rfl rfl rfl

/-- C5 counterexample: the payload with an empty query string and top_k 0
passes validation — there is no non-empty or positivity constraint in the
QueryInput schema — and query then contacts the backend, as its trace of a
create followed by a run call shows. -/
theorem query_empty_query_contacts_backend_cex :
    validateQueryInput (.dict [("query", .str ""), ("top_k", .int 0)]) =
      .ok ⟨"", 0⟩ ∧
    (agent0.query mr5 (stubBackend reply4) true).2 =
      [.create (.str "kb0"), .runCall env5] :=
  ⟨rfl, rfl⟩

/-- C5 amended: query returns the error mapping without any backend
interaction exactly on validation failure, and validation fails when the
query field is missing (or ill-typed, or top_k fails integer coercion) —
but an empty query string and any integer top_k, positive or not, pass
validation, after which the backend is contacted. -/
theorem query_validation_gate :
    (∀ (agent : KnowledgeBaseAgent) (mr : ModelRun) (B : Backend) (jb : Bool)
      (e : PyErr),
      validateQueryInput mr.inputs.func_input_data = .error e →
      agent.query mr B jb = (queryErrDict e.msg, [])) ∧
    (∀ (fs : List (String × PyVal)) (q : String) (n : Int),
      fs.lookup "query" = some (.str q) →
      fs.lookup "top_k" = some (.int n) →
      validateQueryInput (.dict fs) = .ok ⟨q, n⟩) ∧
    (∀ (fs : List (String × PyVal)),
      fs.lookup "query" = Option.none →
      validateQueryInput (.dict fs) =
        .error (.validationError
          "1 validation error for QueryInput: query field required")) :=
  ⟨fun agent mr B jb e h => by
     simp only [KnowledgeBaseAgent.query, h],
   fun fs q n hq hk => by
     simp only [validateQueryInput, hq, hk],
   fun fs hq => by
     simp only [validateQueryInput, hq]⟩

/-- Witness for C5 amended: a missing query field stops before the
backend; an empty query with top_k 0 validates. -/
theorem query_validation_gate_witness :
    agent0.query mrBad (stubBackend reply4) true =
      (queryErrDict "1 validation error for QueryInput: query field required", []) ∧
    validateQueryInput (.dict [("query", .str ""), ("top_k", .int 0)]) =
      .ok ⟨"", 0⟩ ∧
    validateQueryInput (.dict [("top_k", .int 3)]) =
      .error (.validationError
        "1 validation error for QueryInput: query field required") :=
  ⟨query_validation_gate.1 agent0 mrBad (stubBackend reply4) true
     (.validationError "1 validation error for QueryInput: query field required") rfl,
   query_validation_gate.2.1 [("query", .str ""), ("top_k", .int 0)] "" 0 rfl rfl,
   query_validation_gate.2.2 [("top_k", .int 3)] rfl⟩

/-- C6 counterexample: a single valid query request makes two backend
interactions inside the query method alone — the create of line 75 and the
run of line 76 — so not every operation awaits exactly one remote call. -/
theorem query_two_backend_events_cex :
    (agent0.query mr4 (stubBackend reply4) true).2 =
      [.create (.str "kb0"), .runCall env4] ∧
    ((agent0.query mr4 (stubBackend reply4) true).2).length = 2 :=
  ⟨rfl, rfl⟩

/-- C6 amended: store and clear each attempt exactly one backend
interaction, the run call carrying their envelope; query attempts two, a
create followed by its run call; the entry point additionally performs its
own create before dispatch. -/
theorem backend_event_counts :
    (∀ (agent : KnowledgeBaseAgent) (mr : ModelRun) (B : Backend)
      (si : StoreInput) (env : KBRunInput),
      validateStoreInput mr.inputs.func_input_data = .ok si →
      agent._create_kb_input "ingest_knowledge" mr.signature si.model_dump = .ok env →
      (agent.store mr B).2 = [.runCall env]) ∧
    (∀ (agent : KnowledgeBaseAgent) (mr : ModelRun) (B : Backend)
      (env : KBRunInput),
      agent._create_kb_input "clear" mr.signature .none = .ok env →
      (agent.clear mr B).2 = [.runCall env]) ∧
    (∀ (agent : KnowledgeBaseAgent) (mr : ModelRun) (B : Backend) (jb : Bool)
      (qi : QueryInput) (env : KBRunInput) (d : PyVal),
      validateQueryInput mr.inputs.func_input_data = .ok qi →
      agent._create_kb_input "search" mr.signature
        (.dict [("query", .str qi.query), ("top_k", .int qi.top_k)]) = .ok env →
      kbDep0 agent.deployment = .ok d →
      B.createResult d = .ok () →
      (agent.query mr B jb).2 = [.create d, .runCall env]) :=
  ⟨fun agent mr B si env hval henv => by
     simp only [KnowledgeBaseAgent.store, hval, henv]
     cases hr : B.runResult env <;> simp only [hr],
   fun agent mr B env henv => by
     simp only [KnowledgeBaseAgent.clear, henv]
     cases hr : B.runResult env <;> simp only [hr],
   fun agent mr B jb qi env d hval henv hdep hcreate =>
     query_trace_of_valid agent mr B jb qi env d hval henv hdep hcreate⟩

/-- Witness for C6 amended at concrete store, clear and query requests. -/
theorem backend_event_counts_witness :
    (agent0.store mr6s (stubBackend reply4)).2 = [.runCall env6s] ∧
    (agent0.clear mr6c (stubBackend reply4)).2 = [.runCall env6c] ∧
    (agent0.query mr7 (stubBackend reply7) true).2 =
      [.create (.str "kb0"), .runCall env7] :=
  ⟨backend_event_counts.1 agent0 mr6s (stubBackend reply4)
     ⟨"hello world", [("source", .str "unit-test")]⟩ env6s rfl rfl,
   backend_event_counts.2.1 agent0 mr6c (stubBackend reply4) env6c rfl,
   backend_event_counts.2.2 agent0 mr7 (stubBackend reply7) true ⟨"q", 2⟩ env7
     (.str "kb0") rfl rfl rfl rfl⟩

/-- C9: top_k defaults to 2 when absent from a payload that validates and
is passed through unchanged when supplied as an integer (a numeric string
is coerced to the same integer); the envelope query sends to the backend
carries exactly the validated query and top_k values, and that envelope is
the run-call event of the trace. -/
theorem query_top_k_default_and_passthrough :
    (∀ (fs : List (String × PyVal)) (q : String),
      fs.lookup "query" = some (.str q) →
      fs.lookup "top_k" = Option.none →
      validateQueryInput (.dict fs) = .ok ⟨q, 2⟩) ∧
    (∀ (fs : List (String × PyVal)) (q : String) (n : Int),
      fs.lookup "query" = some (.str q) →
      fs.lookup "top_k" = some (.int n) →
      validateQueryInput (.dict fs) = .ok ⟨q, n⟩) ∧
    (∀ (agent : KnowledgeBaseAgent) (mr : ModelRun) (B : Backend) (jb : Bool)
      (qi : QueryInput) (env : KBRunInput) (d : PyVal),
      validateQueryInput mr.inputs.func_input_data = .ok qi →
      agent._create_kb_input "search" mr.signature
        (.dict [("query", .str qi.query), ("top_k", .int qi.top_k)]) = .ok env →
      kbDep0 agent.deployment = .ok d →
      B.createResult d = .ok () →
      env.func_input_data =
        .dict [("query", .str qi.query), ("top_k", .int qi.top_k)] ∧
      (agent.query mr B jb).2 = [.create d, .runCall env]) :=
  ⟨fun fs q hq hk => by
     simp only [validateQueryInput, hq, hk],
   fun fs q n hq hk => by
     simp only [validateQueryInput, hq, hk],
   fun agent mr B jb qi env d hval henv hdep hcreate =>
     ⟨create_kb_input_inv agent "search" mr.signature _ env henv,
      query_trace_of_valid agent mr B jb qi env d hval henv hdep hcreate⟩⟩

/-- Witness for C9: default at an absent top_k, passthrough at top_k 1,
and the concrete envelope of the mr4 query. -/
theorem query_top_k_default_and_passthrough_witness :
    validateQueryInput (.dict [("query", .str "q")]) = .ok ⟨"q", 2⟩ ∧
    validateQueryInput (.dict [("query", .str "hello"), ("top_k", .int 1)]) =
      .ok ⟨"hello", 1⟩ ∧
    (env4.func_input_data =
        .dict [("query", .str "hello"), ("top_k", .int 1)] ∧
      (agent0.query mr4 (stubBackend reply4) false).2 =
        [.create (.str "kb0"), .runCall env4]) :=
  ⟨query_top_k_default_and_passthrough.1 [("query", .str "q")] "q" rfl rfl,
   query_top_k_default_and_passthrough.2.1
     [("query", .str "hello"), ("top_k", .int 1)] "hello" 1 rfl rfl,
   query_top_k_default_and_passthrough.2.2 agent0 mr4 (stubBackend reply4) false
     ⟨"hello", 1⟩ env4 (.str "kb0") rfl rfl rfl rfl⟩

/-- C7: at a backend reply reporting completed with a nested empty data
sequence, query in import mode — the deployed mode, where the name json is
unbound — returns status error from the NameError, not the success result
the claim describes; the claimed behaviour, status success with empty
results and an explanatory message, is produced only in script mode, where
the __main__ block has bound json. -/
theorem query_empty_result_import_mode_eval :
    agent0.query mr7 (stubBackend reply7) false =
      (queryErrDict "name \x27json\x27 is not defined",
       [.create (.str "kb0"), .runCall env7]) ∧
    agent0.query mr7 (stubBackend reply7) true =
      (.dict [("status", .str "success"),
        ("message", .str "No relevant information found for your query."),
        ("results", .list [])],
       [.create (.str "kb0"), .runCall env7]) :=
  ⟨rfl, rfl⟩
